import Mathlib

/-!
Shallow embedding of `crates/typst-library/src/foundations/content/vtable.rs`:
the custom content vtable of the typst document model — `ContentVtable`,
`FieldVtable`, the builder `ContentVtable::new` with its chained modifiers,
the `repr(C)` type erasure `ContentVtable::erase`, and the `Handle` safe
access wrappers — together with theorems checking the specification's
claims about this module.

Collaborator types that the vtable merely passes through (`Engine`, `Args`,
`Styles`, `StyleChain`, `Value`, `CastInfo`, `Lang`, `Region`,
`LazyElementStore`, `TypeId`, pointer payloads of `NonNull`) are modelled
as opaque numeric codes; `EcoString` and formatter output are modelled as
`String`; `SourceResult` is modelled as `Except` over a diagnostic string.
Machine integers (`u8` field ids, the `u128` hash) are modelled as `Nat`,
with an explicit `% 2 ^ 128` bound where the 128-bit width matters.
-/

namespace ContentModel

/-- Opaque model of `crate::engine::Engine` (passed through to hooks). -/
abbrev Engine := Nat

/-- Opaque model of `crate::foundations::Args`. -/
abbrev Args := Nat

/-- Opaque model of a dynamic `crate::foundations::Value`. -/
abbrev Value := Nat

/-- Opaque model of `crate::foundations::Styles` (a style map). -/
abbrev Styles := Nat

/-- Opaque model of `crate::foundations::StyleChain`. -/
abbrev StyleChain := Nat

/-- Opaque model of `crate::foundations::CastInfo`. -/
abbrev CastInfo := Nat

/-- Opaque model of `crate::text::Lang`. -/
abbrev Lang := Nat

/-- Opaque model of `crate::text::Region`. -/
abbrev Region := Nat

/-- Opaque model of `std::any::TypeId` (a capability identifier). -/
abbrev TypeId := Nat

/-- Opaque model of `crate::foundations::LazyElementStore`. -/
abbrev LazyElementStore := Nat

/-- Model of `SourceResult<T> = Result<T, Box<EcoVec<SourceDiagnostic>>>`:
failure carries a structured diagnostic, modelled as its message string. -/
abbrev SourceResult (α : Type) := Except String α

/-- Model of `RawContent` (defined in the sibling `raw` module): the
type-erased runtime representation of one element instance.  `tag` is the
address of the element type's static vtable (the record's type identity),
`payload` encodes the type-specific element data `E`, `refs` is the shared
reference count, and `addr` is a ghost field recording the memory address
at which this record lives (so that address-independence is expressible). -/
structure RawContent where
  tag : Nat
  payload : Nat
  refs : Nat
  addr : Nat
deriving DecidableEq

/-- Model of `Packed<E>`: a `RawContent` known to be of the element type
whose vtable address is `tag`.  In Rust `Packed<E>` is a
`repr(transparent)` wrapper around `RawContent`, so it is modelled as a
subtype of `RawContent`. -/
def Packed (tag : Nat) : Type := { c : RawContent // c.tag = tag }

/-- Model of dereferencing a `Packed<E>` to `&E` (`elem.as_ref()` /
`&**elem` in the source): yields the type-specific payload only, with the
shared part (reference count, address) of the record excluded.  The module
documentation notes that some vtable methods act on just the `E`, with the
shared part kept outside. -/
def Packed.asRef {tag : Nat} (p : Packed tag) : Nat :=
  p.val.payload

/-- Model of `crate::foundations::Scope`, a named-value scope. -/
structure Scope where
  bindings : List (String × Value)
deriving DecidableEq

/-- Model of `Scope::new()`: the empty scope. -/
def Scope.new : Scope := ⟨[]⟩

/-- Bundle of the per-element-type trait implementations that
`ContentVtable::new::<E>` draws on: the element's vtable address and its
`Construct`, `Set` and `Debug` impls (the latter acting on the payload). -/
structure NativeElement where
  tag : Nat
  construct : Engine → Args → SourceResult RawContent
  set : Engine → Args → SourceResult Styles
  debugImpl : Nat → String

/-- Modelled from the spec: `RawContent::drop_impl::<E>` lives in the
sibling `raw` module, outside this file's source.  Destroy runs once the
share count has reached zero and the record is not used afterward; its
effect on the allocator is outside the model, so the model returns unit. -/
def RawContent.drop_impl (_ : NativeElement) : RawContent → Unit :=
  fun _ => ()

/-- Modelled from the spec: `RawContent::clone_impl::<E>` lives in the
sibling `raw` module.  Duplicate returns a new, fully populated record
with a logically equal payload and an independent ownership contribution. -/
def RawContent.clone_impl (E : NativeElement) : Packed E.tag → RawContent :=
  fun p => { p.val with refs := 1 }

/-- Modelled from the spec: `typst_utils::hash128` is outside this module.
It is a fixed pure function of its input with a 128-bit result, stable for
equal inputs and independent of any memory address. -/
def hash128 (data : Nat) : Nat :=
  (data * 1099511628211 + 14695981039346656037) % 2 ^ 128

/-- Model of `FieldVtable<T>` (`vtable.rs` lines 306–346): the static
per-field table of metadata and typed operations.  `T` is `Packed tag`
before erasure and `RawContent` after.  Mutation through `&mut T`
(`materialize`) is modelled by explicit state passing; formatter output is
a `String`. -/
structure FieldVtable (T : Type) where
  name : String
  docs : String
  positional : Bool
  variadic : Bool
  required : Bool
  settable : Bool
  synthesized : Bool
  input : Unit → CastInfo
  default : Option (Unit → Value)
  has : T → Bool
  get : T → Option Value
  get_with_styles : T → StyleChain → Option Value
  get_from_styles : StyleChain → Option Value
  materialize : T → StyleChain → T
  eq : T → T → Bool

/-- Model of `ContentVtable<T>` (`vtable.rs` lines 79–134): the static
per-element-type table.  Slots whose Rust type does not mention `T`
(`field_id`, `construct`, `set`, `local_name`, `scope`, `capability`,
`drop`, `store`) keep `T`-free types here as well. -/
structure ContentVtable (T : Type) where
  name : String
  title : String
  docs : String
  keywords : List String
  fields : List (FieldVtable T)
  field_id : String → Option Nat
  construct : Engine → Args → SourceResult RawContent
  set : Engine → Args → SourceResult Styles
  local_name : Option (Lang → Option Region → String)
  scope : Unit → Scope
  capability : TypeId → Option Nat
  drop : RawContent → Unit
  clone : T → RawContent
  hash : T → Nat
  debug : T → String
  eq : Option (T → T → Bool)
  repr : Option (T → String)
  store : Unit → LazyElementStore

/-- Model of `ContentVtable::new` (`vtable.rs` lines 136–167): builds the
type-specialized table.  Keywords default to the empty list; `construct`
and `set` come from the element's trait impls; `local_name`, `eq` and
`repr` default to absence; `scope` defaults to producing `Scope::new()`;
`hash` feeds only `elem.as_ref()` (the payload) to `hash128`; `debug`
formats only `elem.as_ref()`. -/
def ContentVtable.new (E : NativeElement)
    (name : String) (title : String) (docs : String)
    (fields : List (FieldVtable (Packed E.tag)))
    (field_id : String → Option Nat)
    (capability : TypeId → Option Nat)
    (store : Unit → LazyElementStore) : ContentVtable (Packed E.tag) where
  name := name
  title := title
  docs := docs
  keywords := []
  fields := fields
  field_id := field_id
  construct := E.construct
  set := E.set
  local_name := none
  scope := fun _ => Scope.new
  capability := capability
  drop := RawContent.drop_impl E
  clone := RawContent.clone_impl E
  hash := fun elem => hash128 elem.asRef
  debug := fun elem => E.debugImpl elem.asRef
  eq := none
  repr := none
  store := store

/-- Model of `ContentVtable::field` (`vtable.rs` lines 169–173):
`self.fields.get(usize::from(id))`.  The `u8` id is modelled as `Nat`. -/
def ContentVtable.field {T : Type} (vt : ContentVtable T) (id : Nat) :
    Option (FieldVtable T) :=
  vt.fields[id]?

/-- Model of `ContentVtable::with_keywords` (`vtable.rs` lines 176–180). -/
def ContentVtable.with_keywords {tag : Nat} (vt : ContentVtable (Packed tag))
    (keywords : List String) : ContentVtable (Packed tag) :=
  { vt with keywords := keywords }

/-- Model of `ContentVtable::with_repr` (`vtable.rs` lines 182–189):
stores `|e| E::repr(&**e)`, the element's `Repr` impl applied to the
payload.  The `E: Repr` bound is modelled by passing the impl. -/
def ContentVtable.with_repr {tag : Nat} (vt : ContentVtable (Packed tag))
    (reprImpl : Nat → String) : ContentVtable (Packed tag) :=
  { vt with repr := some (fun e => reprImpl e.asRef) }

/-- Model of `ContentVtable::with_partial_eq` (`vtable.rs` lines 191–198):
stores `|a, b| E::eq(&**a, &**b)`, the element's `PartialEq` impl applied
to the two payloads. -/
def ContentVtable.with_partial_eq {tag : Nat} (vt : ContentVtable (Packed tag))
    (eqImpl : Nat → Nat → Bool) : ContentVtable (Packed tag) :=
  { vt with eq := some (fun a b => eqImpl a.asRef b.asRef) }

/-- Model of `ContentVtable::with_local_name` (`vtable.rs` lines 200–207):
stores `<Packed<E> as LocalName>::local_name`. -/
def ContentVtable.with_local_name {tag : Nat} (vt : ContentVtable (Packed tag))
    (localNameImpl : Lang → Option Region → String) :
    ContentVtable (Packed tag) :=
  { vt with local_name := some localNameImpl }

/-- Model of `ContentVtable::with_scope` (`vtable.rs` lines 209–216):
stores `|| E::scope()`, the element's `NativeScope` impl. -/
def ContentVtable.with_scope {tag : Nat} (vt : ContentVtable (Packed tag))
    (scopeImpl : Unit → Scope) : ContentVtable (Packed tag) :=
  { vt with scope := fun _ => scopeImpl () }

/-- Models the `repr(C)` transmute of a single unary operation under
`ContentVtable::erase`: invoked on content of the originating element type
the erased operation behaves as the typed one; on any other content the
call is undefined behaviour, modelled by a fixed junk result. -/
def eraseOp {A : Type} (tag : Nat) (junk : A) (f : Packed tag → A) :
    RawContent → A :=
  fun c => if h : c.tag = tag then f ⟨c, h⟩ else junk

/-- Binary-operation analogue of `eraseOp` (for `eq`). -/
def eraseOp2 {A : Type} (tag : Nat) (junk : A)
    (f : Packed tag → Packed tag → A) : RawContent → RawContent → A :=
  fun a b =>
    if h : a.tag = tag ∧ b.tag = tag then f ⟨a, h.1⟩ ⟨b, h.2⟩ else junk

/-- Mutating-operation analogue of `eraseOp` (for `materialize`), with the
post-state of the record passed back explicitly. -/
def eraseMut (tag : Nat) (f : Packed tag → StyleChain → Packed tag) :
    RawContent → StyleChain → RawContent :=
  fun c s => if h : c.tag = tag then (f ⟨c, h⟩ s).val else c

/-- Per-entry effect of the `ContentVtable::erase` transmute on the
`fields` slice: metadata and `T`-free slots are reinterpreted unchanged,
`T`-dependent operations through `eraseOp`/`eraseOp2`/`eraseMut`. -/
def FieldVtable.erase {tag : Nat} (fv : FieldVtable (Packed tag)) :
    FieldVtable RawContent where
  name := fv.name
  docs := fv.docs
  positional := fv.positional
  variadic := fv.variadic
  required := fv.required
  settable := fv.settable
  synthesized := fv.synthesized
  input := fv.input
  default := fv.default
  has := eraseOp tag false fv.has
  get := eraseOp tag none fv.get
  get_with_styles := eraseOp tag (fun _ => none) fv.get_with_styles
  get_from_styles := fv.get_from_styles
  materialize := eraseMut tag fv.materialize
  eq := eraseOp2 tag false fv.eq

/-- Model of `ContentVtable::erase` (`vtable.rs` lines 218–236): the
`repr(C)`-justified transmute `ContentVtable<Packed<E>> →
ContentVtable<RawContent>`.  Data slots and `T`-free function slots are
reinterpreted unchanged; every `T`-dependent function slot becomes its
erased counterpart, defined on records of the originating type and junk
elsewhere. -/
def ContentVtable.erase {tag : Nat} (vt : ContentVtable (Packed tag)) :
    ContentVtable RawContent where
  name := vt.name
  title := vt.title
  docs := vt.docs
  keywords := vt.keywords
  fields := vt.fields.map FieldVtable.erase
  field_id := vt.field_id
  construct := vt.construct
  set := vt.set
  local_name := vt.local_name
  scope := vt.scope
  capability := vt.capability
  drop := vt.drop
  clone := eraseOp tag ⟨0, 0, 0, 0⟩ vt.clone
  hash := eraseOp tag 0 vt.hash
  debug := eraseOp tag "" vt.debug
  eq := vt.eq.map (eraseOp2 tag false)
  repr := vt.repr.map (eraseOp tag "")
  store := vt.store

/-- Model of `Handle<T, V>` (`vtable.rs` line 53): content paired with a
vtable reference. -/
structure Handle (T : Type) (V : Type) where
  content : T
  vtable : V

/-- Model of `Handle::new` (`vtable.rs` lines 56–64).  In Rust this is the
single unsafe constructor: the caller must prove out of band that the
vtable is derived from the content's element type. -/
def Handle.new {T V : Type} (content : T) (vtable : V) : Handle T V :=
  ⟨content, vtable⟩

/-- Model of `ContentHandle<T> = Handle<T, ContentVtable>`. -/
abbrev ContentHandle (T : Type) := Handle T (ContentVtable RawContent)

/-- Model of `FieldHandle<T> = Handle<T, FieldVtable>`. -/
abbrev FieldHandle (T : Type) := Handle T (FieldVtable RawContent)

/-- Model of `ContentHandle::field` (`vtable.rs` lines 240–245): looks up
the field vtable at `id` and pairs it with the same content. -/
def ContentHandle.field {T : Type} (h : ContentHandle T) (id : Nat) :
    Option (FieldHandle T) :=
  (h.vtable.fields[id]?).map (fun vt => Handle.new h.content vt)

/-- Model of `ContentHandle::fields` (`vtable.rs` lines 248–256). -/
def ContentHandle.fields {T : Type} (h : ContentHandle T) :
    List (FieldHandle T) :=
  h.vtable.fields.map (fun vt => Handle.new h.content vt)

/-- Model of `ContentHandle::debug` (`vtable.rs` lines 261–264). -/
def ContentHandle.debug (h : ContentHandle RawContent) : String :=
  h.vtable.debug h.content

/-- Model of `ContentHandle::repr` (`vtable.rs` lines 267–270). -/
def ContentHandle.repr (h : ContentHandle RawContent) : Option String :=
  h.vtable.repr.map (fun f => f h.content)

/-- Model of `ContentHandle::clone` (`vtable.rs` lines 273–276). -/
def ContentHandle.clone (h : ContentHandle RawContent) : RawContent :=
  h.vtable.clone h.content

/-- Model of `ContentHandle::hash` (`vtable.rs` lines 279–282). -/
def ContentHandle.hash (h : ContentHandle RawContent) : Nat :=
  h.vtable.hash h.content

/-- Model of `ContentHandle::drop` (`vtable.rs` lines 287–292).  In Rust
this wrapper method is itself declared `pub unsafe fn`: its caller must
still satisfy the requirements of the `drop` slot. -/
def ContentHandle.drop (h : ContentHandle RawContent) : Unit :=
  h.vtable.drop h.content

/-- Model of `ContentHandle::eq` (`vtable.rs` lines 296–301): maps the
optional `eq` slot over the pair of records; performs no field-wise
fallback itself. -/
def ContentHandle.eq (h : ContentHandle (RawContent × RawContent)) :
    Option Bool :=
  h.vtable.eq.map (fun f => f h.content.1 h.content.2)

/-- Model of `FieldHandle::has` (`vtable.rs` lines 350–353). -/
def FieldHandle.has (h : FieldHandle RawContent) : Bool :=
  h.vtable.has h.content

/-- Model of `FieldHandle::get` (`vtable.rs` lines 356–359). -/
def FieldHandle.get (h : FieldHandle RawContent) : Option Value :=
  h.vtable.get h.content

/-- Model of `FieldHandle::get_with_styles` (`vtable.rs` lines 362–365). -/
def FieldHandle.get_with_styles (h : FieldHandle RawContent)
    (styles : StyleChain) : Option Value :=
  h.vtable.get_with_styles h.content styles

/-- Model of `FieldHandle::materialize` (`vtable.rs` lines 370–373), with
the mutated record passed back explicitly. -/
def FieldHandle.materialize (h : FieldHandle RawContent)
    (styles : StyleChain) : RawContent :=
  h.vtable.materialize h.content styles

/-- Model of `FieldHandle::eq` (`vtable.rs` lines 378–382). -/
def FieldHandle.eq (h : FieldHandle (RawContent × RawContent)) : Bool :=
  h.vtable.eq h.content.1 h.content.2

/-- Type-level signature facts transcribed from one Rust function or
vtable slot: its name, whether the source declares it with an unchecked
safety obligation (the Rust keyword for it), and whether its result type
is the fallible `SourceResult`, the diagnostic channel of this core.
The `fmt::Result` returned by the debug slot is not such a channel: it
only forwards the formatter sink's own write status and carries no
diagnostic this core can raise, so `debug` counts as not fallible. -/
structure Sig where
  name : String
  precond : Bool
  fallible : Bool
deriving DecidableEq

/-- The methods of the safe access wrappers (`Handle`, `ContentHandle`,
`FieldHandle`), transcribed from `vtable.rs`.  `Handle::new` (line 61) and
`ContentHandle::drop` (line 287) are the two declared with an unchecked
obligation; no wrapper method has a fallible result. -/
def handleMethods : List Sig :=
  [⟨"Handle::new", true, false⟩,
   ⟨"ContentHandle::field", false, false⟩,
   ⟨"ContentHandle::fields", false, false⟩,
   ⟨"ContentHandle::debug", false, false⟩,
   ⟨"ContentHandle::repr", false, false⟩,
   ⟨"ContentHandle::clone", false, false⟩,
   ⟨"ContentHandle::hash", false, false⟩,
   ⟨"ContentHandle::drop", true, false⟩,
   ⟨"ContentHandle::eq", false, false⟩,
   ⟨"FieldHandle::has", false, false⟩,
   ⟨"FieldHandle::get", false, false⟩,
   ⟨"FieldHandle::get_with_styles", false, false⟩,
   ⟨"FieldHandle::materialize", false, false⟩,
   ⟨"FieldHandle::eq", false, false⟩]

/-- The function-valued slots of `ContentVtable` (lines 95–133) and
`FieldVtable` (lines 324–345), transcribed from `vtable.rs`.  Only
`construct` and `set` return `SourceResult`; every other slot returns a
plain value. -/
def vtableSlots : List Sig :=
  [⟨"ContentVtable::field_id", false, false⟩,
   ⟨"ContentVtable::construct", false, true⟩,
   ⟨"ContentVtable::set", false, true⟩,
   ⟨"ContentVtable::local_name", false, false⟩,
   ⟨"ContentVtable::scope", false, false⟩,
   ⟨"ContentVtable::capability", false, false⟩,
   ⟨"ContentVtable::drop", true, false⟩,
   ⟨"ContentVtable::clone", true, false⟩,
   ⟨"ContentVtable::hash", true, false⟩,
   ⟨"ContentVtable::debug", true, false⟩,
   ⟨"ContentVtable::eq", true, false⟩,
   ⟨"ContentVtable::repr", true, false⟩,
   ⟨"ContentVtable::store", false, false⟩,
   ⟨"FieldVtable::input", false, false⟩,
   ⟨"FieldVtable::default", false, false⟩,
   ⟨"FieldVtable::has", true, false⟩,
   ⟨"FieldVtable::get", true, false⟩,
   ⟨"FieldVtable::get_with_styles", true, false⟩,
   ⟨"FieldVtable::get_from_styles", false, false⟩,
   ⟨"FieldVtable::materialize", true, false⟩,
   ⟨"FieldVtable::eq", true, false⟩]

/-- Modelled from the spec and the module documentation (`vtable.rs`
lines 10–12): each element type's descriptor is one `static` variable, so
registration assigns every type a fresh, never-reused descriptor address.
The registry records `(type identifier, descriptor address)` pairs and the
next free address. -/
structure Registry where
  addrs : List (Nat × Nat)
  next : Nat

/-- The registry before any element type is defined. -/
def Registry.empty : Registry := ⟨[], 0⟩

/-- Registers one element type, placing its descriptor at a fresh
address. -/
def Registry.register (r : Registry) (t : Nat) : Registry :=
  ⟨(t, r.next) :: r.addrs, r.next + 1⟩

/-- The registry obtained by defining the given element types in order. -/
def Registry.ofTypes (ts : List Nat) : Registry :=
  ts.foldl Registry.register Registry.empty

/-- The descriptor address registered for type `t`, if any. -/
def Registry.addrOf (r : Registry) (t : Nat) : Option Nat :=
  (r.addrs.find? (fun p => p.1 == t)).map (fun p => p.2)

/-- Modelled from the spec: `RawContent::is::<T>` lives in the sibling
`raw` module; per the module documentation it compares the record's raw
vtable pointer against `T`'s static vtable address — no string comparison,
no dynamic cast, no virtual call. -/
def RawContent.is (c : RawContent) (vtableAddr : Nat) : Bool :=
  c.tag == vtableAddr

/-- A concrete element type used to instantiate the theorems. -/
def exampleElem : NativeElement where
  tag := 7
  construct := fun _ _ => Except.ok ⟨7, 0, 1, 0⟩
  set := fun _ _ => Except.error "expected length, found boolean"
  debugImpl := fun n => toString n

/-- A concrete field vtable of `exampleElem`. -/
def exampleField : FieldVtable (Packed exampleElem.tag) where
  name := "body"
  docs := "The contents."
  positional := true
  variadic := false
  required := true
  settable := false
  synthesized := false
  input := fun _ => 0
  default := none
  has := fun _ => true
  get := fun p => some p.asRef
  get_with_styles := fun p _ => some p.asRef
  get_from_styles := fun _ => none
  materialize := fun p _ => p
  eq := fun a b => a.asRef == b.asRef

/-- A concrete element vtable built by `ContentVtable::new`. -/
def exampleVtable : ContentVtable (Packed exampleElem.tag) :=
  ContentVtable.new exampleElem "example" "Example" "An example element."
    [exampleField]
    (fun s => if s == "body" then some 0 else none)
    (fun _ => none)
    (fun _ => 0)

/-- A concrete record of `exampleElem`'s type. -/
def exampleRecord : RawContent := ⟨7, 5, 1, 100⟩

/-- A second record of the same type with an equal payload but different
shared metadata (reference count) and a different memory address. -/
def exampleRecord2 : RawContent := ⟨7, 5, 3, 200⟩

/-- Registration invariant: every address handed out so far is below the
next free address, and the addresses are pairwise distinct.  Both are
preserved by any sequence of registrations. -/
theorem registry_foldl_inv (ts : List Nat) (r : Registry)
    (h1 : ∀ p ∈ r.addrs, p.2 < r.next)
    (h2 : (r.addrs.map Prod.snd).Nodup) :
    (∀ p ∈ (ts.foldl Registry.register r).addrs,
        p.2 < (ts.foldl Registry.register r).next)
    ∧ ((ts.foldl Registry.register r).addrs.map Prod.snd).Nodup := by
  induction ts generalizing r with
  | nil => exact ⟨h1, h2⟩
  | cons t ts ih =>
    apply ih
    · intro p hp
      simp only [Registry.register] at hp ⊢
      rcases List.mem_cons.mp hp with rfl | hp
      · exact Nat.lt_succ_self _
      · exact Nat.lt_succ_of_lt (h1 p hp)
    · simp only [Registry.register, List.map_cons]
      refine List.nodup_cons.mpr ⟨?_, h2⟩
      intro hmem
      obtain ⟨p, hp, hpeq⟩ := List.mem_map.mp hmem
      have := h1 p hp
      omega

/-- The descriptor addresses of any registry built from scratch are
pairwise distinct. -/
theorem registry_nodup (ts : List Nat) :
    ((Registry.ofTypes ts).addrs.map Prod.snd).Nodup :=
  (registry_foldl_inv ts Registry.empty
    (by intro p hp; simp [Registry.empty] at hp) (by simp [Registry.empty])).2

/-- Claim C8: type identity is descriptor-address comparison.  For any
sequence of element-type definitions, two distinct types receive
descriptor addresses that never compare equal, and `RawContent::is` is
exactly the comparison of the record's stored vtable address with the
type's static vtable address — no string comparison, no dynamic cast, no
virtual call. -/
theorem descriptor_address_identity (ts : List Nat) (t1 t2 a1 a2 : Nat)
    (h1 : (Registry.ofTypes ts).addrOf t1 = some a1)
    (h2 : (Registry.ofTypes ts).addrOf t2 = some a2)
    (hne : t1 ≠ t2) :
    a1 ≠ a2 ∧ ∀ c : RawContent, (RawContent.is c a1 = true ↔ c.tag = a1) := by
  constructor
  · intro heq
    unfold Registry.addrOf at h1 h2
    obtain ⟨p1, hf1, hm1⟩ := Option.map_eq_some'.mp h1
    obtain ⟨p2, hf2, hm2⟩ := Option.map_eq_some'.mp h2
    have hp1mem := List.mem_of_find?_eq_some hf1
    have hp2mem := List.mem_of_find?_eq_some hf2
    have hp1t : p1.1 = t1 := by simpa using List.find?_some hf1
    have hp2t : p2.1 = t2 := by simpa using List.find?_some hf2
    have hpp : p1 = p2 :=
      List.inj_on_of_nodup_map (registry_nodup ts) hp1mem hp2mem
        (by rw [hm1, hm2, heq])
    exact hne (hp1t ▸ hp2t ▸ congrArg Prod.fst hpp)
  · intro c
    simp [RawContent.is]

/-- Witness for C8 on a concrete registry of two element types. -/
theorem descriptor_address_identity_witness :
    (0 : Nat) ≠ 1
    ∧ (RawContent.is exampleRecord 0 = true ↔ exampleRecord.tag = 0) := by
  have h := descriptor_address_identity [3, 5] 3 5 0 1 (by decide) (by decide)
    (by decide)
  exact ⟨h.1, h.2 exampleRecord⟩

/-- Claim C1 (counterexample): the claim that every wrapper method other
than the constructor `Handle::new` is safe with no further preconditions
is false on the code — `ContentHandle::drop` is itself declared with an
unchecked obligation (`vtable.rs` line 287). -/
theorem wrapper_methods_all_safe_counterexample :
    ¬ ∀ m ∈ handleMethods, m.name ≠ "Handle::new" → m.precond = false := by
  decide

/-- Claim C1 (amended): every wrapper method other than the constructor
`Handle::new` and `ContentHandle::drop` is safe with no further
preconditions; `drop` still carries the unchecked obligation that the
share count has reached zero and the record is never used afterward. -/
theorem wrapper_methods_safe_except_new_and_drop :
    ∀ m ∈ handleMethods,
      m.name ≠ "Handle::new" → m.name ≠ "ContentHandle::drop" →
        m.precond = false := by
  decide

/-- Witness for the amended C1 at the `ContentHandle::hash` method. -/
theorem wrapper_methods_safe_except_new_and_drop_witness :
    (Sig.mk "ContentHandle::hash" false false).precond = false :=
  wrapper_methods_safe_except_new_and_drop ⟨"ContentHandle::hash", false, false⟩
    (by decide) (by decide) (by decide)

/-- Claim C7: no wrapper method and no vtable slot other than the
construction hook and the style-set hook has a fallible result; those two
return the structured `SourceResult`, and the built table takes them
directly from the element's `Construct` and `Set` impls. -/
theorem only_construct_and_set_fallible :
    (vtableSlots.all (fun s => s.fallible
        == (s.name == "ContentVtable::construct"
            || s.name == "ContentVtable::set"))) = true
    ∧ (handleMethods.all (fun m => m.fallible == false)) = true
    ∧ ∀ (E : NativeElement) (n t d : String)
        (flds : List (FieldVtable (Packed E.tag))) (fid : String → Option Nat)
        (cap : TypeId → Option Nat) (st : Unit → LazyElementStore),
        (ContentVtable.new E n t d flds fid cap st).construct = E.construct
        ∧ (ContentVtable.new E n t d flds fid cap st).set = E.set :=
  ⟨by decide, by decide, fun _ _ _ _ _ _ _ _ => ⟨rfl, rfl⟩⟩

/-- Claim C6: a table produced by the builder has no custom equality, no
custom repr, no localized-name hook, no custom scope and an empty keyword
list, and each is individually enabled by its chained modifier. -/
theorem builder_defaults_and_modifiers (E : NativeElement) (n t d : String)
    (flds : List (FieldVtable (Packed E.tag))) (fid : String → Option Nat)
    (cap : TypeId → Option Nat) (st : Unit → LazyElementStore)
    (kw : List String) (eqImpl : Nat → Nat → Bool) (reprImpl : Nat → String)
    (localNameImpl : Lang → Option Region → String)
    (scopeImpl : Unit → Scope) :
    (ContentVtable.new E n t d flds fid cap st).keywords = []
    ∧ (ContentVtable.new E n t d flds fid cap st).eq = none
    ∧ (ContentVtable.new E n t d flds fid cap st).repr = none
    ∧ (ContentVtable.new E n t d flds fid cap st).local_name = none
    ∧ (ContentVtable.new E n t d flds fid cap st).scope () = Scope.new
    ∧ ((ContentVtable.new E n t d flds fid cap st).with_keywords kw).keywords
        = kw
    ∧ ((ContentVtable.new E n t d flds fid cap st).with_partial_eq eqImpl).eq
        = some (fun a b => eqImpl a.asRef b.asRef)
    ∧ ((ContentVtable.new E n t d flds fid cap st).with_repr reprImpl).repr
        = some (fun e => reprImpl e.asRef)
    ∧ ((ContentVtable.new E n t d flds fid cap st).with_local_name
        localNameImpl).local_name = some localNameImpl
    ∧ ((ContentVtable.new E n t d flds fid cap st).with_scope scopeImpl).scope ()
        = scopeImpl () :=
  ⟨rfl, rfl, rfl, rfl, rfl, rfl, rfl, rfl, rfl, rfl⟩

/-- Claim C10: the scope hook of a freshly built table is present and
callable (it is a total function slot, not an optional one like `eq`,
`repr` and `local_name`, which are absent by default) and returns the
empty scope; after `with_scope` it returns the element's native scope. -/
theorem scope_default_empty_and_callable (E : NativeElement) (n t d : String)
    (flds : List (FieldVtable (Packed E.tag))) (fid : String → Option Nat)
    (cap : TypeId → Option Nat) (st : Unit → LazyElementStore)
    (scopeImpl : Unit → Scope) (u : Unit) :
    (ContentVtable.new E n t d flds fid cap st).scope u = Scope.new
    ∧ ((ContentVtable.new E n t d flds fid cap st).with_scope scopeImpl).scope u
        = scopeImpl ()
    ∧ (ContentVtable.new E n t d flds fid cap st).eq = none
    ∧ (ContentVtable.new E n t d flds fid cap st).repr = none
    ∧ (ContentVtable.new E n t d flds fid cap st).local_name = none :=
  ⟨rfl, rfl, rfl, rfl, rfl⟩

/-- Claim C3: equality on a paired-record wrapper is the optional `eq`
slot mapped over the two records: absent exactly when the element type did
not opt in via `with_partial_eq`, otherwise the element's `PartialEq`
applied to the two payloads; the wrapper performs no field-wise fallback
itself. -/
theorem paired_eq_optional (E : NativeElement) (n t d : String)
    (flds : List (FieldVtable (Packed E.tag))) (fid : String → Option Nat)
    (cap : TypeId → Option Nat) (st : Unit → LazyElementStore)
    (eqImpl : Nat → Nat → Bool) (a b : RawContent)
    (ha : a.tag = E.tag) (hb : b.tag = E.tag) :
    ContentHandle.eq
      (Handle.new (a, b) ((ContentVtable.new E n t d flds fid cap st).erase))
      = none
    ∧ ContentHandle.eq (Handle.new (a, b)
        (((ContentVtable.new E n t d flds fid cap st).with_partial_eq
            eqImpl).erase))
      = some (eqImpl a.payload b.payload)
    ∧ ∀ vt : ContentVtable RawContent,
        ContentHandle.eq (Handle.new (a, b) vt)
          = vt.eq.map (fun f => f a b) := by
  refine ⟨rfl, ?_, fun vt => rfl⟩
  simp [ContentHandle.eq, Handle.new, ContentVtable.erase,
    ContentVtable.with_partial_eq, ContentVtable.new, eraseOp2, ha, hb,
    Packed.asRef]

/-- Witness for C3 on the concrete example element. -/
theorem paired_eq_optional_witness :
    ContentHandle.eq (Handle.new (exampleRecord, exampleRecord2)
      (ContentVtable.erase exampleVtable)) = none
    ∧ ContentHandle.eq (Handle.new (exampleRecord, exampleRecord2)
        ((exampleVtable.with_partial_eq (fun x y => x == y)).erase))
      = some (exampleRecord.payload == exampleRecord2.payload) := by
  have h := paired_eq_optional exampleElem "example" "Example"
    "An example element." [exampleField]
    (fun s => if s == "body" then some 0 else none) (fun _ => none)
    (fun _ => 0) (fun x y => x == y) exampleRecord exampleRecord2 rfl rfl
  exact ⟨h.1, h.2.1⟩

/-- Claim C4: the content hash of a record with a matching descriptor is a
128-bit digest of the type-specific payload only: it equals `hash128` of
the payload, agrees across records with equal payloads regardless of their
reference counts or memory addresses, and is below `2 ^ 128`. -/
theorem hash_payload_only (E : NativeElement) (n t d : String)
    (flds : List (FieldVtable (Packed E.tag))) (fid : String → Option Nat)
    (cap : TypeId → Option Nat) (st : Unit → LazyElementStore)
    (c1 c2 : RawContent) (h1 : c1.tag = E.tag) (h2 : c2.tag = E.tag)
    (hp : c1.payload = c2.payload) :
    ContentHandle.hash
        (Handle.new c1 ((ContentVtable.new E n t d flds fid cap st).erase))
      = hash128 c1.payload
    ∧ ContentHandle.hash
        (Handle.new c1 ((ContentVtable.new E n t d flds fid cap st).erase))
      = ContentHandle.hash
        (Handle.new c2 ((ContentVtable.new E n t d flds fid cap st).erase))
    ∧ ContentHandle.hash
        (Handle.new c1 ((ContentVtable.new E n t d flds fid cap st).erase))
      < 2 ^ 128 := by
  have e1 : ContentHandle.hash
      (Handle.new c1 ((ContentVtable.new E n t d flds fid cap st).erase))
      = hash128 c1.payload := by
    show eraseOp E.tag 0 _ c1 = _
    rw [eraseOp, dif_pos h1]
    rfl
  have e2 : ContentHandle.hash
      (Handle.new c2 ((ContentVtable.new E n t d flds fid cap st).erase))
      = hash128 c2.payload := by
    show eraseOp E.tag 0 _ c2 = _
    rw [eraseOp, dif_pos h2]
    rfl
  refine ⟨e1, ?_, ?_⟩
  · rw [e1, e2, hp]
  · rw [e1, hash128]
    exact Nat.mod_lt _ (by norm_num)

/-- Witness for C4: two records of the example type with equal payloads
but different reference counts and addresses hash identically. -/
theorem hash_payload_only_witness :
    ContentHandle.hash
        (Handle.new exampleRecord (ContentVtable.erase exampleVtable))
      = ContentHandle.hash
        (Handle.new exampleRecord2 (ContentVtable.erase exampleVtable)) := by
  have h := hash_payload_only exampleElem "example" "Example"
    "An example element." [exampleField]
    (fun s => if s == "body" then some 0 else none) (fun _ => none)
    (fun _ => 0) exampleRecord exampleRecord2 rfl rfl rfl
  exact h.2.1

/-- Claim C5: `ContentVtable::field` returns the field vtable stored at
exactly the requested index when the id is in range and `none` otherwise,
and `ContentHandle::field` does the same while pairing the result with the
same record the wrapper holds. -/
theorem field_lookup (vt : ContentVtable RawContent) (id : Nat)
    (c : RawContent) :
    (∀ h : id < vt.fields.length,
        ContentVtable.field vt id = some (vt.fields.get ⟨id, h⟩)
        ∧ ContentHandle.field (Handle.new c vt) id
          = some (Handle.new c (vt.fields.get ⟨id, h⟩)))
    ∧ (vt.fields.length ≤ id →
        ContentVtable.field vt id = none
        ∧ ContentHandle.field (Handle.new c vt) id = none) := by
  constructor
  · intro h
    have hg : vt.fields[id]? = some (vt.fields.get ⟨id, h⟩) := by
      rw [List.getElem?_eq_getElem h, List.get_eq_getElem]
    exact ⟨hg, by simp [ContentHandle.field, Handle.new, hg]⟩
  · intro h
    have hg : vt.fields[id]? = none := List.getElem?_eq_none h
    exact ⟨hg, by simp [ContentHandle.field, Handle.new, hg]⟩

/-- Witness for C5: an out-of-range id on the example table yields
absence. -/
theorem field_lookup_witness :
    ContentVtable.field (ContentVtable.erase exampleVtable) 3 = none
    ∧ ContentHandle.field
        (Handle.new exampleRecord (ContentVtable.erase exampleVtable)) 3
      = none :=
  (field_lookup (ContentVtable.erase exampleVtable) 3 exampleRecord).2
    (by decide)

/-- Claim C2: `ContentVtable::erase` is a one-to-one, type-preserving
reinterpretation.  The erased table keeps exactly the same name, title,
docs and keywords, the same number and order of field vtables, and the
same field-id resolver, constructor, set hook, local-name hook, scope
hook, capability lookup and store accessor; and every erased per-record
and per-field operation, applied to content of the originating element
type, behaves exactly as the corresponding typed operation of the
pre-erasure table. -/
theorem erase_preserves (tag : Nat) (vt : ContentVtable (Packed tag)) :
    vt.erase.name = vt.name
    ∧ vt.erase.title = vt.title
    ∧ vt.erase.docs = vt.docs
    ∧ vt.erase.keywords = vt.keywords
    ∧ vt.erase.fields.length = vt.fields.length
    ∧ (∀ i : Nat, vt.erase.fields[i]? = (vt.fields[i]?).map FieldVtable.erase)
    ∧ vt.erase.field_id = vt.field_id
    ∧ vt.erase.construct = vt.construct
    ∧ vt.erase.set = vt.set
    ∧ vt.erase.local_name = vt.local_name
    ∧ vt.erase.scope = vt.scope
    ∧ vt.erase.capability = vt.capability
    ∧ vt.erase.store = vt.store
    ∧ vt.erase.drop = vt.drop
    ∧ (∀ (c : RawContent) (h : c.tag = tag),
        vt.erase.hash c = vt.hash ⟨c, h⟩
        ∧ vt.erase.debug c = vt.debug ⟨c, h⟩
        ∧ vt.erase.clone c = vt.clone ⟨c, h⟩
        ∧ vt.erase.repr.map (fun f => f c) = vt.repr.map (fun f => f ⟨c, h⟩))
    ∧ (∀ (a b : RawContent) (ha : a.tag = tag) (hb : b.tag = tag),
        vt.erase.eq.map (fun f => f a b)
          = vt.eq.map (fun f => f ⟨a, ha⟩ ⟨b, hb⟩))
    ∧ (∀ fv : FieldVtable (Packed tag),
        fv.erase.name = fv.name
        ∧ fv.erase.docs = fv.docs
        ∧ fv.erase.positional = fv.positional
        ∧ fv.erase.variadic = fv.variadic
        ∧ fv.erase.required = fv.required
        ∧ fv.erase.settable = fv.settable
        ∧ fv.erase.synthesized = fv.synthesized
        ∧ fv.erase.input = fv.input
        ∧ fv.erase.default = fv.default
        ∧ fv.erase.get_from_styles = fv.get_from_styles
        ∧ ∀ (c c2 : RawContent) (h : c.tag = tag) (h2 : c2.tag = tag)
            (s : StyleChain),
            fv.erase.has c = fv.has ⟨c, h⟩
            ∧ fv.erase.get c = fv.get ⟨c, h⟩
            ∧ fv.erase.get_with_styles c s = fv.get_with_styles ⟨c, h⟩ s
            ∧ fv.erase.materialize c s = (fv.materialize ⟨c, h⟩ s).val
            ∧ fv.erase.eq c c2 = fv.eq ⟨c, h⟩ ⟨c2, h2⟩) := by
  refine ⟨rfl, rfl, rfl, rfl, by simp [ContentVtable.erase], ?_, rfl, rfl,
    rfl, rfl, rfl, rfl, rfl, rfl, ?_, ?_, ?_⟩
  · intro i
    simp [ContentVtable.erase]
  · intro c h
    refine ⟨?_, ?_, ?_, ?_⟩
    · show eraseOp tag 0 vt.hash c = _
      rw [eraseOp, dif_pos h]
    · show eraseOp tag "" vt.debug c = _
      rw [eraseOp, dif_pos h]
    · show eraseOp tag ⟨0, 0, 0, 0⟩ vt.clone c = _
      rw [eraseOp, dif_pos h]
    · cases hr : vt.repr with
      | none => simp [ContentVtable.erase, hr]
      | some f => simp [ContentVtable.erase, hr, eraseOp, h]
  · intro a b ha hb
    cases he : vt.eq with
    | none => simp [ContentVtable.erase, he]
    | some f => simp [ContentVtable.erase, he, eraseOp2, ha, hb]
  · intro fv
    refine ⟨rfl, rfl, rfl, rfl, rfl, rfl, rfl, rfl, rfl, rfl, ?_⟩
    intro c c2 h h2 s
    refine ⟨?_, ?_, ?_, ?_, ?_⟩
    · show eraseOp tag false fv.has c = _
      rw [eraseOp, dif_pos h]
    · show eraseOp tag none fv.get c = _
      rw [eraseOp, dif_pos h]
    · show eraseOp tag (fun _ => none) fv.get_with_styles c s = _
      rw [eraseOp, dif_pos h]
    · show eraseMut tag fv.materialize c s = _
      rw [eraseMut, dif_pos h]
    · show eraseOp2 tag false fv.eq c c2 = _
      rw [eraseOp2, dif_pos (⟨h, h2⟩ : c.tag = tag ∧ c2.tag = tag)]

/-- Witness for C2: on the example element the erased hash operation,
applied to a record of the originating type, agrees with the typed hash
operation of the pre-erasure table. -/
theorem erase_preserves_witness :
    (ContentVtable.erase exampleVtable).hash exampleRecord
      = exampleVtable.hash ⟨exampleRecord, rfl⟩ := by
  obtain ⟨-, -, -, -, -, -, -, -, -, -, -, -, -, -, hop, -, -⟩ :=
    erase_preserves exampleElem.tag exampleVtable
  exact (hop exampleRecord rfl).1

/-- Claim C9: each chained modifier changes only its own slot of the
type-specialized table and leaves every other attribute — metadata, the
field list, the field-id resolver, the constructor, the set hook, the
capability lookup, the store accessor and all remaining operation slots —
unchanged. -/
theorem modifier_frame (tag : Nat) (vt : ContentVtable (Packed tag))
    (kw : List String) (eqImpl : Nat → Nat → Bool) (reprImpl : Nat → String)
    (localNameImpl : Lang → Option Region → String)
    (scopeImpl : Unit → Scope) :
    (vt.with_keywords kw).name = vt.name
    ∧ (vt.with_keywords kw).title = vt.title
    ∧ (vt.with_keywords kw).docs = vt.docs
    ∧ (vt.with_keywords kw).fields = vt.fields
    ∧ (vt.with_keywords kw).field_id = vt.field_id
    ∧ (vt.with_keywords kw).construct = vt.construct
    ∧ (vt.with_keywords kw).set = vt.set
    ∧ (vt.with_keywords kw).local_name = vt.local_name
    ∧ (vt.with_keywords kw).scope = vt.scope
    ∧ (vt.with_keywords kw).capability = vt.capability
    ∧ (vt.with_keywords kw).drop = vt.drop
    ∧ (vt.with_keywords kw).clone = vt.clone
    ∧ (vt.with_keywords kw).hash = vt.hash
    ∧ (vt.with_keywords kw).debug = vt.debug
    ∧ (vt.with_keywords kw).eq = vt.eq
    ∧ (vt.with_keywords kw).repr = vt.repr
    ∧ (vt.with_keywords kw).store = vt.store
    ∧ (vt.with_repr reprImpl).name = vt.name
    ∧ (vt.with_repr reprImpl).title = vt.title
    ∧ (vt.with_repr reprImpl).docs = vt.docs
    ∧ (vt.with_repr reprImpl).keywords = vt.keywords
    ∧ (vt.with_repr reprImpl).fields = vt.fields
    ∧ (vt.with_repr reprImpl).field_id = vt.field_id
    ∧ (vt.with_repr reprImpl).construct = vt.construct
    ∧ (vt.with_repr reprImpl).set = vt.set
    ∧ (vt.with_repr reprImpl).local_name = vt.local_name
    ∧ (vt.with_repr reprImpl).scope = vt.scope
    ∧ (vt.with_repr reprImpl).capability = vt.capability
    ∧ (vt.with_repr reprImpl).drop = vt.drop
    ∧ (vt.with_repr reprImpl).clone = vt.clone
    ∧ (vt.with_repr reprImpl).hash = vt.hash
    ∧ (vt.with_repr reprImpl).debug = vt.debug
    ∧ (vt.with_repr reprImpl).eq = vt.eq
    ∧ (vt.with_repr reprImpl).store = vt.store
    ∧ (vt.with_partial_eq eqImpl).name = vt.name
    ∧ (vt.with_partial_eq eqImpl).title = vt.title
    ∧ (vt.with_partial_eq eqImpl).docs = vt.docs
    ∧ (vt.with_partial_eq eqImpl).keywords = vt.keywords
    ∧ (vt.with_partial_eq eqImpl).fields = vt.fields
    ∧ (vt.with_partial_eq eqImpl).field_id = vt.field_id
    ∧ (vt.with_partial_eq eqImpl).construct = vt.construct
    ∧ (vt.with_partial_eq eqImpl).set = vt.set
    ∧ (vt.with_partial_eq eqImpl).local_name = vt.local_name
    ∧ (vt.with_partial_eq eqImpl).scope = vt.scope
    ∧ (vt.with_partial_eq eqImpl).capability = vt.capability
    ∧ (vt.with_partial_eq eqImpl).drop = vt.drop
    ∧ (vt.with_partial_eq eqImpl).clone = vt.clone
    ∧ (vt.with_partial_eq eqImpl).hash = vt.hash
    ∧ (vt.with_partial_eq eqImpl).debug = vt.debug
    ∧ (vt.with_partial_eq eqImpl).repr = vt.repr
    ∧ (vt.with_partial_eq eqImpl).store = vt.store
    ∧ (vt.with_local_name localNameImpl).name = vt.name
    ∧ (vt.with_local_name localNameImpl).title = vt.title
    ∧ (vt.with_local_name localNameImpl).docs = vt.docs
    ∧ (vt.with_local_name localNameImpl).keywords = vt.keywords
    ∧ (vt.with_local_name localNameImpl).fields = vt.fields
    ∧ (vt.with_local_name localNameImpl).field_id = vt.field_id
    ∧ (vt.with_local_name localNameImpl).construct = vt.construct
    ∧ (vt.with_local_name localNameImpl).set = vt.set
    ∧ (vt.with_local_name localNameImpl).scope = vt.scope
    ∧ (vt.with_local_name localNameImpl).capability = vt.capability
    ∧ (vt.with_local_name localNameImpl).drop = vt.drop
    ∧ (vt.with_local_name localNameImpl).clone = vt.clone
    ∧ (vt.with_local_name localNameImpl).hash = vt.hash
    ∧ (vt.with_local_name localNameImpl).debug = vt.debug
    ∧ (vt.with_local_name localNameImpl).eq = vt.eq
    ∧ (vt.with_local_name localNameImpl).repr = vt.repr
    ∧ (vt.with_local_name localNameImpl).store = vt.store
    ∧ (vt.with_scope scopeImpl).name = vt.name
    ∧ (vt.with_scope scopeImpl).title = vt.title
    ∧ (vt.with_scope scopeImpl).docs = vt.docs
    ∧ (vt.with_scope scopeImpl).keywords = vt.keywords
    ∧ (vt.with_scope scopeImpl).fields = vt.fields
    ∧ (vt.with_scope scopeImpl).field_id = vt.field_id
    ∧ (vt.with_scope scopeImpl).construct = vt.construct
    ∧ (vt.with_scope scopeImpl).set = vt.set
    ∧ (vt.with_scope scopeImpl).local_name = vt.local_name
    ∧ (vt.with_scope scopeImpl).capability = vt.capability
    ∧ (vt.with_scope scopeImpl).drop = vt.drop
    ∧ (vt.with_scope scopeImpl).clone = vt.clone
    ∧ (vt.with_scope scopeImpl).hash = vt.hash
    ∧ (vt.with_scope scopeImpl).debug = vt.debug
    ∧ (vt.with_scope scopeImpl).eq = vt.eq
    ∧ (vt.with_scope scopeImpl).repr = vt.repr
    ∧ (vt.with_scope scopeImpl).store = vt.store := by
  repeat' apply And.intro
  all_goals rfl

end ContentModel
